import Mathlib

/-!
Verification of the streaming-relay edge handlers.

The development shallowly embeds the three relevant request handlers:
* `nodeStreaming*` — the Node.js streaming function (raw chunk forwarding,
  `max_tokens || 4008` normalization, clamp to 40000);
* `edge*` — the Vercel Edge streaming function (line reassembly with a
  carry-over buffer, `=== undefined` defaults, clamp to 8192);
* `proxy*` — the non-streaming 120-second proxy (defaults plus clamp to 40000).

Strings are embedded as `List Char`; JSON field states distinguish
`undefined`, `null`, numbers, booleans, strings and objects, because the
handlers branch on exactly those distinctions.
-/

/-- A JavaScript value sitting in a request-body field.  `undef` is an absent
field, `jnull` an explicit `null`, `nanv` the number NaN.  Numeric coercion of
non-numeric strings is elided: no handler feeds a string into `Math.min/max`
in any scenario the claims exercise. -/
inductive JField where
  | undef
  | jnull
  | nanv
  | num (q : ℚ)
  | boolv (b : Bool)
  | str (s : List Char)
  | objv
  deriving DecidableEq, Repr

namespace JField

/-- JavaScript truthiness of a field value. -/
def jsTruthy : JField → Bool
  | undef => false
  | jnull => false
  | nanv => false
  | num q => q ≠ 0
  | boolv b => b
  | str s => s ≠ []
  | objv => true

/-- JavaScript `Number(x)` coercion; `none` is NaN.  (`str` and `objv`
return NaN here: the numeric-string case is elided, see `JField`.) -/
def toNumQ : JField → Option ℚ
  | undef => none
  | jnull => some 0
  | nanv => none
  | num q => some q
  | boolv b => some (if b then 1 else 0)
  | str _ => none
  | objv => none

end JField

open JField

/-- `Math.min(Math.max(1, v), cap)` on a field value, NaN-propagating and
returning a JavaScript number (stored back into the body). -/
def clampNum (cap : ℚ) (v : JField) : JField :=
  match v.toNumQ with
  | some q => .num (min (max 1 q) cap)
  | none => .nanv

/-- Node streaming handler, `max_tokens` normalization:
`originalMaxTokens = requestBody.max_tokens || 4008` then
`Math.min(Math.max(1, originalMaxTokens), 40000)`. -/
def nodeStreamingMaxTokens (v : JField) : JField :=
  clampNum 40000 (if v.jsTruthy then v else .num 4008)

/-- Edge handler, `max_tokens` normalization: default `4008` when the field
is `undefined`, then `Math.min(Math.max(1, x), 8192)`. -/
def edgeMaxTokens (v : JField) : JField :=
  clampNum 8192 (if v = .undef then .num 4008 else v)

/-- 120-second proxy, `max_tokens` normalization: default `4008` when
`undefined` (no clamp on that branch), else `Math.min(Math.max(1, x), 40000)`. -/
def proxyMaxTokens (v : JField) : JField :=
  if v = .undef then .num 4008 else clampNum 40000 v

/-! ## Byte-stream splitting (edge relay reassembly) -/

/-- Shorthand: the character list of a string literal. -/
def strL (s : String) : List Char := s.toList

/-- Split a character stream at `'\n'` into the complete lines (first
component) and the trailing remainder that has not yet seen a terminator
(second component).  This is `textChunk.split('\n')` together with
`incompleteChunk = lines.pop() || ''` from the edge handler:
`splitParts s = (lines-after-pop, popped-last-element)`. -/
def splitParts : List Char → List (List Char) × List Char
  | [] => ([], [])
  | c :: cs =>
    let r := splitParts cs
    if c = '\n' then ([] :: r.1, r.2)
    else
      match r.1 with
      | [] => ([], c :: r.2)
      | l :: ls => ((c :: l) :: ls, r.2)

/-- How a concatenation splits: the lines of `a ++ b` are the lines of `a`,
then the first line of `b` completed by `a`'s remainder, then the rest of
`b`'s lines; the remainder joins when `b` has no complete line. -/
theorem splitParts_append (a b : List Char) :
    splitParts (a ++ b) =
      ((splitParts a).1 ++
        (match (splitParts b).1 with
          | [] => []
          | h :: t => ((splitParts a).2 ++ h) :: t),
       match (splitParts b).1 with
        | [] => (splitParts a).2 ++ (splitParts b).2
        | _ :: _ => (splitParts b).2) := by
  induction a with
  | nil =>
    cases hb : (splitParts b).1 <;>
      simp [splitParts, Prod.ext_iff, hb]
  | cons c cs ih =>
    by_cases hc : c = '\n'
    · subst hc
      cases hb : (splitParts b).1 <;>
        simp [splitParts, ih, hb, Prod.ext_iff]
    · cases hcs : (splitParts cs).1 <;> cases hb : (splitParts b).1 <;>
        simp [splitParts, hc, ih, hcs, hb, Prod.ext_iff]

/-! ## Edge relay: per-line processing and the read loop -/

/-- `!line.trim()` in the edge loop: every character of the line is
whitespace (space, tab, CR, LF, VT, FF; exotic Unicode spaces elided —
no claim exercises them). -/
def isBlankLine (l : List Char) : Bool :=
  l.all fun c =>
    c.toNat = 32 || c.toNat = 9 || c.toNat = 10 ||
    c.toNat = 13 || c.toNat = 11 || c.toNat = 12

/-- `subject.startsWith(pat)` on character lists. -/
def startsWithL : (pat subject : List Char) → Bool
  | [], _ => true
  | _ :: _, [] => false
  | p :: ps, c :: cs => p == c && startsWithL ps cs

/-- The blank-line frame separator `"\n\n"`. -/
def nl2 : List Char := strL "\n\n"

/-- The data-frame tag `"data:"` tested by `line.startsWith('data:')`. -/
def dataTag : List Char := strL "data:"

/-- The synthetic prefixing string `"data: "`. -/
def dataTagSp : List Char := strL "data: "

/-- The terminal done marker `"data: [DONE]\n\n"`. -/
def doneFrame : List Char := strL "data: [DONE]\n\n"

/-- The frame the edge loop writes for one complete non-blank line:
verbatim if the line already starts with `data:`, else wrapped by
prepending `data: `; either way followed by the blank-line separator. -/
def encodeLine (l : List Char) : List Char :=
  if startsWithL dataTag l then l ++ nl2 else dataTagSp ++ l ++ nl2

/-- Frames written for one candidate line: blank lines are skipped. -/
def lineWrites (l : List Char) : List (List Char) :=
  if isBlankLine l then [] else [encodeLine l]

/-- Frames written for a list of complete lines (the inner `for` loop). -/
def writesOf : List (List Char) → List (List Char)
  | [] => []
  | l :: ls => lineWrites l ++ writesOf ls

/-- One iteration of the edge read loop: prepend the carry-over
(`incompleteChunk`) to the new chunk, split on `'\n'`, pop the last
(incomplete) line as the new carry-over, write frames for the rest. -/
def processChunk (carry chunk : List Char) : List Char × List (List Char) :=
  ((splitParts (carry ++ chunk)).2, writesOf (splitParts (carry ++ chunk)).1)

/-- Threading one read through the loop state (carry-over, frames so far). -/
def relayStep (st : List Char × List (List Char)) (chunk : List Char) :
    List Char × List (List Char) :=
  ((processChunk st.1 chunk).1, st.2 ++ (processChunk st.1 chunk).2)

/-- The whole read loop over a sequence of reads, from the empty carry-over. -/
def edgeScan (chunks : List (List Char)) : List Char × List (List Char) :=
  chunks.foldl relayStep ([], [])

/-- End-of-data flush: `if (incompleteChunk) writer.write('data: ' +
incompleteChunk + '\n\n')` — note the unconditional prefix. -/
def edgeFlush (carry : List Char) : List (List Char) :=
  if carry = [] then [] else [dataTagSp ++ carry ++ nl2]

/-- All data frames a normally-completing edge relay session writes before
its done marker: the loop's frames, then the flush of the final carry-over. -/
def edgeDataWrites (chunks : List (List Char)) : List (List Char) :=
  (edgeScan chunks).2 ++ edgeFlush (edgeScan chunks).1

theorem writesOf_append (xs ys : List (List Char)) :
    writesOf (xs ++ ys) = writesOf xs ++ writesOf ys := by
  induction xs with
  | nil => simp [writesOf]
  | cons l ls ih => simp [writesOf, ih]

theorem writesOf_eq_map_filter (ls : List (List Char)) :
    writesOf ls = (ls.filter fun l => !isBlankLine l).map encodeLine := by
  induction ls with
  | nil => simp [writesOf]
  | cons l t ih =>
    by_cases h : isBlankLine l <;>
      simp [writesOf, lineWrites, List.filter, h, ih]

/-- A newline-free stream splits into no complete line and itself. -/
theorem splitParts_of_no_nl {l : List Char} (h : '\n' ∉ l) :
    splitParts l = ([], l) := by
  induction l with
  | nil => rfl
  | cons c cs ih =>
    have hc : c ≠ '\n' := fun hc => h (hc ▸ List.mem_cons_self c cs)
    have hcs : '\n' ∉ cs := fun hm => h (List.mem_cons_of_mem c hm)
    simp [splitParts, hc, ih hcs]

/-- The carry-over remainder never contains a newline. -/
theorem splitParts_snd_no_nl (s : List Char) : '\n' ∉ (splitParts s).2 := by
  induction s with
  | nil => simp [splitParts]
  | cons c cs ih =>
    by_cases hc : c = '\n'
    · simpa [splitParts, hc] using ih
    · cases hcs : (splitParts cs).1 with
      | nil =>
        simp only [splitParts, if_neg hc, hcs]
        intro hm
        rcases List.mem_cons.mp hm with h | h
        · exact hc h.symm
        · exact ih h
      | cons l ls => simpa [splitParts, hc, hcs] using ih

/-- Processing a concatenation of two byte ranges in one read equals
processing them in two consecutive reads. -/
theorem processChunk_append (c a b : List Char) :
    processChunk c (a ++ b) =
      ((processChunk (processChunk c a).1 b).1,
       (processChunk c a).2 ++ (processChunk (processChunk c a).1 b).2) := by
  have h1 : c ++ (a ++ b) = (c ++ a) ++ b := (List.append_assoc c a b).symm
  have hnn : splitParts ((splitParts (c ++ a)).2) = ([], (splitParts (c ++ a)).2) :=
    splitParts_of_no_nl (splitParts_snd_no_nl (c ++ a))
  unfold processChunk
  rw [h1, splitParts_append (c ++ a) b,
    splitParts_append ((splitParts (c ++ a)).2) b, hnn]
  cases hb : (splitParts b).1 <;>
    simp [hb, writesOf_append, writesOf, Prod.ext_iff]

/-- The read loop from any newline-free carry-over state is equivalent to a
single read of the concatenated bytes. -/
theorem foldl_relayStep_flatten (chunks : List (List Char)) :
    ∀ (c : List Char) (w : List (List Char)), '\n' ∉ c →
      chunks.foldl relayStep (c, w) =
        ((processChunk c chunks.flatten).1,
         w ++ (processChunk c chunks.flatten).2) := by
  induction chunks with
  | nil =>
    intro c w hc
    simp [processChunk, List.foldl, splitParts_of_no_nl hc, writesOf]
  | cons ch chs ih =>
    intro c w hc
    have hstep : (processChunk c ch).1 = (splitParts (c ++ ch)).2 := rfl
    have hnn : '\n' ∉ (processChunk c ch).1 := by
      rw [hstep]; exact splitParts_snd_no_nl (c ++ ch)
    calc (ch :: chs).foldl relayStep (c, w)
        = chs.foldl relayStep (relayStep (c, w) ch) := rfl
      _ = ((processChunk (processChunk c ch).1 chs.flatten).1,
            (w ++ (processChunk c ch).2) ++
              (processChunk (processChunk c ch).1 chs.flatten).2) :=
          ih (processChunk c ch).1 (w ++ (processChunk c ch).2) hnn
      _ = ((processChunk c (ch ++ chs.flatten)).1,
            w ++ (processChunk c (ch ++ chs.flatten)).2) := by
          rw [processChunk_append c ch chs.flatten, List.append_assoc]
  
/-- The edge read loop is split-invariant: its final state depends only on
the concatenation of the reads. -/
theorem edgeScan_eq_flatten (chunks : List (List Char)) :
    edgeScan chunks =
      ((splitParts chunks.flatten).2,
       writesOf (splitParts chunks.flatten).1) := by
  have h := foldl_relayStep_flatten chunks [] [] (by simp)
  simpa [edgeScan, processChunk] using h

/-! ## Error frames and session outcomes

Frame byte strings are built exactly as the handlers build them with
`JSON.stringify` over object literals with insertion-ordered keys; message
and detail strings are assumed to contain no characters needing JSON
escaping (none of the claims exercises escaping). -/

/-- Decimal digits of a status code, as interpolated into a template string. -/
def natL (n : Nat) : List Char := (toString n).toList

/-- Node handler error frame:
`data: ${JSON.stringify({error: true, message})}\n\n`. -/
def nodeErrFrame (msg : List Char) : List Char :=
  strL "data: \x7b\"error\":true,\"message\":\"" ++ msg ++ strL "\"\x7d\n\n"

/-- Edge handler frame for a non-2xx upstream response:
`data: ${JSON.stringify({error: true, message: `API Error: ${statusText}`,
details})}\n\n`. -/
def edgeStatusFrame (statusText details : List Char) : List Char :=
  strL "data: \x7b\"error\":true,\"message\":\"API Error: " ++ statusText ++
    strL "\",\"details\":\"" ++ details ++ strL "\"\x7d\n\n"

/-- Edge handler frame for an error thrown while reading the stream. -/
def edgeStreamErrFrame (msg : List Char) : List Char :=
  strL "data: \x7b\"error\":true,\"message\":\"Stream processing error: " ++
    msg ++ strL "\"\x7d\n\n"

/-- Edge handler frame for a failed `fetch`. -/
def edgeFetchErrFrame (msg : List Char) : List Char :=
  strL "data: \x7b\"error\":true,\"message\":\"Request failed: " ++
    msg ++ strL "\"\x7d\n\n"

/-- `response.ok`: status in the 2xx range. -/
def isOkStatus (code : Nat) : Bool := 200 ≤ code && code < 300

/-- How the edge handler's upstream stream terminates after delivering its
chunks: clean end-of-data, or a thrown read error. -/
inductive StreamTerm where
  | ended
  | errored (msg : List Char)
  deriving DecidableEq, Repr

/-- What the edge handler's upstream fetch produced. -/
inductive EdgeOutcome where
  | fetchErr (msg : List Char)
  | resp (code : Nat) (statusText details : List Char)
      (chunks : List (List Char)) (term : StreamTerm)
  deriving DecidableEq, Repr

/-- How the node handler's upstream stream terminates: `end` event, `error`
event, or the client's `close` event firing first (after which the stream is
destroyed and no further events run). -/
inductive NodeTerm where
  | ended
  | errored (msg : List Char)
  | clientClosed
  deriving DecidableEq, Repr

/-- What the node handler's upstream fetch produced. -/
inductive NodeOutcome where
  | fetchErr (msg : List Char)
  | resp (code : Nat) (statusText : List Char)
      (chunks : List (List Char)) (term : NodeTerm)
  deriving DecidableEq, Repr

/-- Observable end state of one streaming session. -/
structure SessionResult where
  writes : List (List Char)
  sinkClosed : Bool
  upstreamDestroyed : Bool
  deriving DecidableEq, Repr

/-- The edge relay session: background task writing to the transform-stream
writer.  A non-2xx response writes one status-error frame and closes (no done
marker); a clean end writes the reassembled frames, the carry-over flush and
the done marker; a read error writes the frames produced so far and one
stream-error frame (no flush, no done); a failed fetch writes one error
frame.  Every path closes the writer; nothing ever destroys the upstream. -/
def edgeSessionRun : EdgeOutcome → SessionResult
  | .fetchErr msg => ⟨[edgeFetchErrFrame msg], true, false⟩
  | .resp code statusText details chunks term =>
    if isOkStatus code then
      match term with
      | .ended => ⟨edgeDataWrites chunks ++ [doneFrame], true, false⟩
      | .errored msg =>
          ⟨(edgeScan chunks).2 ++ [edgeStreamErrFrame msg], true, false⟩
    else ⟨[edgeStatusFrame statusText details], true, false⟩

/-- The node relay session: chunks are forwarded verbatim; `end` appends the
done marker; `error` appends one error frame then the done marker; the
client's `close` destroys the upstream and ends the response with nothing
more written.  A non-2xx response throws
`API Error: ${status} ${statusText}`, landing in the catch that writes one
error frame then the done marker; a failed fetch lands there too.  Every
path calls `res.end()`. -/
def nodeSessionRun : NodeOutcome → SessionResult
  | .fetchErr msg => ⟨[nodeErrFrame msg, doneFrame], true, false⟩
  | .resp code statusText chunks term =>
    if isOkStatus code then
      match term with
      | .ended => ⟨chunks ++ [doneFrame], true, false⟩
      | .errored msg => ⟨chunks ++ [nodeErrFrame msg, doneFrame], true, false⟩
      | .clientClosed => ⟨chunks, true, true⟩
    else
      ⟨[nodeErrFrame (strL "API Error: " ++ natL code ++ strL " " ++ statusText),
        doneFrame], true, false⟩

/-! ## Request bodies, validation and the handler envelopes -/

/-- The request-body fields the handlers read and normalize. -/
structure Body where
  model : JField
  messages : JField
  max_tokens : JField
  temperature : JField
  top_p : JField
  top_k : JField
  presence_penalty : JField
  frequency_penalty : JField
  stream : JField
  deriving DecidableEq, Repr

/-- Inbound HTTP method, as far as the handlers distinguish it. -/
inductive Method where
  | options
  | post
  | get
  deriving DecidableEq, Repr

/-- What the caller receives: a 204 preflight acknowledgment, a plain
JSON (non-streaming) body with the given HTTP status, or a committed
`text/event-stream` response (HTTP 200) carrying the given frame writes. -/
inductive HttpOut where
  | preflight
  | jsonErr (status : Nat)
  | sse (writes : List (List Char))
  deriving DecidableEq, Repr

/-- The edge handler's control flow: OPTIONS preflight; non-POST → 405;
missing key → 500; JSON parse failure → 400; falsy `model` → 400; otherwise
the streaming `Response` is returned (headers committed) and the background
session runs.  `messages` is never checked. -/
def edgeHandler (method : Method) (keyPresent : Bool)
    (parsed : Option Body) (u : EdgeOutcome) : HttpOut :=
  if method = .options then .preflight
  else if method ≠ .post then .jsonErr 405
  else if !keyPresent then .jsonErr 500
  else
    match parsed with
    | none => .jsonErr 400
    | some b =>
      if !b.model.jsTruthy then .jsonErr 400
      else .sse (edgeSessionRun u).writes

/-- The node streaming handler's control flow: OPTIONS preflight; non-POST →
405; missing key → 500; JSON parse failure → 400; otherwise the SSE headers
are set and flushed before the upstream call, so every upstream outcome is
delivered in-stream.  Neither `model` nor `messages` is checked. -/
def nodeStreamingHandler (method : Method) (keyPresent : Bool)
    (parsed : Option Body) (u : NodeOutcome) : HttpOut :=
  if method = .options then .preflight
  else if method ≠ .post then .jsonErr 405
  else if !keyPresent then .jsonErr 500
  else
    match parsed with
    | none => .jsonErr 400
    | some _ => .sse (nodeSessionRun u).writes

/-! ## Normalization of the outbound payload -/

/-- `v !== undefined ? v : d` / `if (v === undefined) v = d`. -/
def dflt (v d : JField) : JField := if v = .undef then d else v

/-- The edge handler's normalization of the parsed body: `stream` forced to
`true`, defaults for the undefined sampling fields, then the `max_tokens`
clamp to `[1, 8192]`.  `model` and `messages` pass through untouched. -/
def edgeNormalize (b : Body) : Body where
  model := b.model
  messages := b.messages
  max_tokens := edgeMaxTokens b.max_tokens
  temperature := dflt b.temperature (.num (6/10))
  top_p := dflt b.top_p (.num 1)
  top_k := dflt b.top_k (.num 40)
  presence_penalty := dflt b.presence_penalty (.num 0)
  frequency_penalty := dflt b.frequency_penalty (.num 0)
  stream := .boolv true

/-- The 120-second proxy's in-place normalization: `max_tokens` default or
clamp to `[1, 40000]`, defaults for the undefined sampling fields.  `stream`
is not touched on this path. -/
def proxyNormalize (b : Body) : Body where
  model := b.model
  messages := b.messages
  max_tokens := proxyMaxTokens b.max_tokens
  temperature := dflt b.temperature (.num (6/10))
  top_p := dflt b.top_p (.num 1)
  top_k := dflt b.top_k (.num 40)
  presence_penalty := dflt b.presence_penalty (.num 0)
  frequency_penalty := dflt b.frequency_penalty (.num 0)
  stream := b.stream

/-- The node handler's cleanup loop: keys whose value is `undefined` or
`null` are deleted from `cleanedParams`; `none` is a deleted key. -/
def nodeCleanup (v : JField) : Option JField :=
  if v = .undef ∨ v = .jnull then none else some v

/-- The node handler's outbound payload after the cleanup loop. -/
structure CleanedParams where
  model : Option JField
  messages : Option JField
  max_tokens : Option JField
  temperature : Option JField
  top_p : Option JField
  top_k : Option JField
  presence_penalty : Option JField
  frequency_penalty : Option JField
  stream : Option JField
  deriving DecidableEq, Repr

/-- The node handler's `cleanedParams` construction followed by the
delete-`undefined`/`null` loop. -/
def nodeCleanedParams (b : Body) : CleanedParams where
  model := nodeCleanup b.model
  messages := nodeCleanup b.messages
  max_tokens := nodeCleanup (nodeStreamingMaxTokens b.max_tokens)
  temperature := nodeCleanup (dflt b.temperature (.num (6/10)))
  top_p := nodeCleanup (dflt b.top_p (.num 1))
  top_k := nodeCleanup (dflt b.top_k (.num 40))
  presence_penalty := nodeCleanup (dflt b.presence_penalty (.num 0))
  frequency_penalty := nodeCleanup (dflt b.frequency_penalty (.num 0))
  stream := nodeCleanup (.boolv true)

/-! ### Helper lemmas about normalization -/

theorem dflt_idem (v d : JField) (hd : d ≠ .undef) :
    dflt (dflt v d) d = dflt v d := by
  unfold dflt
  by_cases hv : v = .undef <;> simp [hv, hd]

theorem clampNum_ne_undef (cap : ℚ) (v : JField) : clampNum cap v ≠ .undef := by
  unfold clampNum
  cases v.toNumQ <;> simp

theorem clampNum_idem (cap : ℚ) (hcap : 1 ≤ cap) (v : JField) :
    clampNum cap (clampNum cap v) = clampNum cap v := by
  unfold clampNum
  cases hv : v.toNumQ with
  | none => simp [toNumQ]
  | some q =>
    simp only [toNumQ]
    have h1 : 1 ≤ min (max 1 q) cap := le_min (le_max_left 1 q) hcap
    have h2 : min (max 1 q) cap ≤ cap := min_le_right _ _
    rw [max_eq_right h1, min_eq_left h2]

/-! ## Helpers for the claims -/

/-- Number of done markers among the writes of a session. -/
def doneCount (ws : List (List Char)) : Nat := ws.count doneFrame

/-- The node session is the cancelled (client-disconnect) path: the `close`
handler only exists once streaming actually began (2xx response). -/
def nodeCancelled : NodeOutcome → Bool
  | .resp code _ _ .clientClosed => isOkStatus code
  | _ => false

/-- The edge session completed normally (2xx and clean end-of-data). -/
def edgeNormalEnd : EdgeOutcome → Bool
  | .resp code _ _ _ .ended => isOkStatus code
  | _ => false

/-- The upstream-derived chunk writes of a node session (forwarded verbatim). -/
def nodeUpstreamChunks : NodeOutcome → List (List Char)
  | .fetchErr _ => []
  | .resp _ _ chunks _ => chunks

/-- The upstream-derived frame writes of an edge session. -/
def edgeUpstreamFrames : EdgeOutcome → List (List Char)
  | .fetchErr _ => []
  | .resp _ _ _ chunks .ended => edgeDataWrites chunks
  | .resp _ _ _ chunks (.errored _) => (edgeScan chunks).2

/-- The lines of a byte stream: its complete (terminated) lines plus the
unterminated trailing remainder when that is non-empty. -/
def linesOf (s : List Char) : List (List Char) :=
  (splitParts s).1 ++ (if (splitParts s).2 = [] then [] else [(splitParts s).2])

theorem startsWithL_append_of (p : List Char) :
    ∀ a b : List Char, startsWithL p a = true → startsWithL p (a ++ b) = true := by
  induction p with
  | nil => intro a b _; rfl
  | cons x xs ih =>
    intro a b h
    cases a with
    | nil => exact absurd h (by simp [startsWithL])
    | cons c cs =>
      simp only [startsWithL, Bool.and_eq_true] at h ⊢
      exact ⟨h.1, ih cs b h.2⟩

/-- A write that starts with `data: {` is not the done marker
(`data: [DONE]\n\n`). -/
theorem ne_done_of_brace {w : List Char}
    (h : startsWithL (strL "data: \x7b") w = true) : w ≠ doneFrame := by
  intro he
  rw [he] at h
  exact absurd h (by decide)

theorem nodeErrFrame_ne_done (msg : List Char) : nodeErrFrame msg ≠ doneFrame := by
  apply ne_done_of_brace
  unfold nodeErrFrame
  apply startsWithL_append_of
  apply startsWithL_append_of
  decide

theorem edgeStatusFrame_ne_done (st det : List Char) :
    edgeStatusFrame st det ≠ doneFrame := by
  apply ne_done_of_brace
  unfold edgeStatusFrame
  apply startsWithL_append_of
  apply startsWithL_append_of
  apply startsWithL_append_of
  apply startsWithL_append_of
  decide

theorem edgeStreamErrFrame_ne_done (msg : List Char) :
    edgeStreamErrFrame msg ≠ doneFrame := by
  apply ne_done_of_brace
  unfold edgeStreamErrFrame
  apply startsWithL_append_of
  apply startsWithL_append_of
  decide

theorem edgeFetchErrFrame_ne_done (msg : List Char) :
    edgeFetchErrFrame msg ≠ doneFrame := by
  apply ne_done_of_brace
  unfold edgeFetchErrFrame
  apply startsWithL_append_of
  apply startsWithL_append_of
  decide

theorem dflt_ne_undef {v d : JField} (hd : d ≠ .undef) : dflt v d ≠ .undef := by
  unfold dflt
  split
  · exact hd
  · assumption

theorem dflt_ne_jnull {v d : JField} (hv : v ≠ .jnull) (hd : d ≠ .jnull) :
    dflt v d ≠ .jnull := by
  unfold dflt
  split
  · exact hd
  · exact hv

theorem clampNum_ne_jnull (cap : ℚ) (v : JField) : clampNum cap v ≠ .jnull := by
  unfold clampNum
  cases v.toNumQ <;> simp

theorem nodeCleanup_eq_some {v : JField} (h1 : v ≠ .undef) (h2 : v ≠ .jnull) :
    nodeCleanup v = some v := by
  unfold nodeCleanup
  simp [h1, h2]

theorem edgeMaxTokens_idem (v : JField) :
    edgeMaxTokens (edgeMaxTokens v) = edgeMaxTokens v := by
  unfold edgeMaxTokens
  rw [if_neg (clampNum_ne_undef 8192 _)]
  exact clampNum_idem 8192 (by norm_num) _

theorem proxyMaxTokens_idem (v : JField) :
    proxyMaxTokens (proxyMaxTokens v) = proxyMaxTokens v := by
  by_cases hv : v = .undef
  · subst hv
    show proxyMaxTokens (.num 4008) = .num 4008
    unfold proxyMaxTokens clampNum
    norm_num [toNumQ]
  · unfold proxyMaxTokens
    rw [if_neg hv, if_neg (clampNum_ne_undef _ _)]
    exact clampNum_idem _ (by norm_num) _

/-! ## Claims C6, C7, C9: normalization -/

@[simp] theorem jf_num_ne_undef (q : ℚ) : (JField.num q) ≠ .undef :=
  fun h => JField.noConfusion h

@[simp] theorem jf_num_ne_jnull (q : ℚ) : (JField.num q) ≠ .jnull :=
  fun h => JField.noConfusion h

/-- C9: both cited normalizers are idempotent — re-normalizing an already
normalized payload (defaults, `max_tokens` clamp, and on the edge path
`stream` forcing) yields an identical payload. -/
theorem c9_normalize_idem (b : Body) :
    edgeNormalize (edgeNormalize b) = edgeNormalize b ∧
    proxyNormalize (proxyNormalize b) = proxyNormalize b := by
  constructor <;>
    simp [edgeNormalize, proxyNormalize, edgeMaxTokens_idem, proxyMaxTokens_idem,
      dflt_idem]

/-- C6-counterexample: on the node streaming path (the cited 40000-cap
normalization) `max_tokens: 0` is falsy, so `requestBody.max_tokens || 4008`
replaces it with the default and the value sent upstream is 4008 — not the
claimed clamp of input 0 to 1. -/
theorem c6_counterexample :
    nodeStreamingMaxTokens (.num 0) = .num 4008 ∧
    nodeStreamingMaxTokens (.num 0) ≠ .num 1 := by
  constructor <;>
    norm_num [nodeStreamingMaxTokens, clampNum, jsTruthy, toNumQ]

/-- C6 (amended): all three paths default an absent `max_tokens` to 4008.
The edge path (cap 8192) and the 120-second proxy path (cap 40000) clamp
every numeric input to `[1, cap]` — 0 → 1, 999999 → cap, 500 → 500.  The
node streaming path (cap 40000) clamps only truthy values: input 0 is
replaced by the default 4008 instead of being clamped to 1. -/
theorem c6_max_tokens (q : ℚ) (hq : q ≠ 0) :
    nodeStreamingMaxTokens .undef = .num 4008 ∧
    edgeMaxTokens .undef = .num 4008 ∧
    proxyMaxTokens .undef = .num 4008 ∧
    nodeStreamingMaxTokens (.num q) = .num (min (max 1 q) 40000) ∧
    nodeStreamingMaxTokens (.num 0) = .num 4008 ∧
    edgeMaxTokens (.num q) = .num (min (max 1 q) 8192) ∧
    proxyMaxTokens (.num q) = .num (min (max 1 q) 40000) ∧
    edgeMaxTokens (.num 0) = .num 1 ∧
    proxyMaxTokens (.num 0) = .num 1 ∧
    edgeMaxTokens (.num 999999) = .num 8192 ∧
    nodeStreamingMaxTokens (.num 999999) = .num 40000 ∧
    proxyMaxTokens (.num 999999) = .num 40000 ∧
    edgeMaxTokens (.num 500) = .num 500 ∧
    nodeStreamingMaxTokens (.num 500) = .num 500 ∧
    proxyMaxTokens (.num 500) = .num 500 := by
  refine ⟨?_, ?_, ?_, ?_, ?_, ?_, ?_, ?_, ?_, ?_, ?_, ?_, ?_, ?_, ?_⟩ <;>
    norm_num [nodeStreamingMaxTokens, edgeMaxTokens, proxyMaxTokens, clampNum,
      jsTruthy, toNumQ, hq]

theorem c6_max_tokens_witness :
    nodeStreamingMaxTokens (.num 2) = .num (min (max 1 2) 40000) ∧
    edgeMaxTokens (.num 0) = .num 1 := by
  have h := c6_max_tokens 2 (by norm_num)
  exact ⟨h.2.2.2.1, h.2.2.2.2.2.2.2.1⟩

/-- A well-formed minimal request body: model and messages present, all
optional fields absent. -/
def goodBody : Body :=
  ⟨.str (strL "m"), .objv, .undef, .undef, .undef, .undef, .undef, .undef, .undef⟩

/-- `goodBody` with `temperature: null` supplied by the caller. -/
def nullTempBody : Body :=
  ⟨.str (strL "m"), .objv, .undef, .jnull, .undef, .undef, .undef, .undef, .undef⟩

/-- C7-counterexample: a caller-supplied `temperature: null` ends up neither
as the caller's value nor as the default: the node path's cleanup loop
deletes the key from the outbound payload, and the edge path forwards the
`null` untouched — refuting "every optional field present and never null". -/
theorem c7_counterexample :
    (nodeCleanedParams nullTempBody).temperature = none ∧
    (edgeNormalize nullTempBody).temperature = .jnull := by
  constructor
  · simp [nodeCleanedParams, nullTempBody, nodeCleanup, dflt]
  · simp [edgeNormalize, nullTempBody, dflt]

/-- C7 (amended): `stream` is forced to `true` on both relay paths whatever
the caller sent; and provided the caller supplies no `null` sampling field,
every optional field of the outbound payload is present and non-null —
the caller's value if supplied, otherwise the documented default
(temperature 0.6, top_p 1, top_k 40, presence_penalty 0,
frequency_penalty 0, max_tokens normalized).  A `null` sampling field
instead is deleted on the node path and forwarded as `null` on the edge
path (see the counterexample). -/
theorem c7_canonical_payload (b : Body)
    (ht : b.temperature ≠ .jnull) (hp : b.top_p ≠ .jnull)
    (hk : b.top_k ≠ .jnull) (hpp : b.presence_penalty ≠ .jnull)
    (hfp : b.frequency_penalty ≠ .jnull) :
    (nodeCleanedParams b).stream = some (.boolv true) ∧
    (edgeNormalize b).stream = .boolv true ∧
    (nodeCleanedParams b).max_tokens =
      some (nodeStreamingMaxTokens b.max_tokens) ∧
    (nodeCleanedParams b).temperature =
      some (dflt b.temperature (.num (6/10))) ∧
    (nodeCleanedParams b).top_p = some (dflt b.top_p (.num 1)) ∧
    (nodeCleanedParams b).top_k = some (dflt b.top_k (.num 40)) ∧
    (nodeCleanedParams b).presence_penalty =
      some (dflt b.presence_penalty (.num 0)) ∧
    (nodeCleanedParams b).frequency_penalty =
      some (dflt b.frequency_penalty (.num 0)) ∧
    (edgeNormalize b).temperature = dflt b.temperature (.num (6/10)) ∧
    (edgeNormalize b).top_p = dflt b.top_p (.num 1) ∧
    (edgeNormalize b).top_k = dflt b.top_k (.num 40) ∧
    (edgeNormalize b).presence_penalty = dflt b.presence_penalty (.num 0) ∧
    (edgeNormalize b).frequency_penalty = dflt b.frequency_penalty (.num 0) ∧
    (edgeNormalize b).max_tokens = edgeMaxTokens b.max_tokens ∧
    dflt b.temperature (.num (6/10)) ≠ .jnull ∧
    dflt b.temperature (.num (6/10)) ≠ .undef ∧
    dflt b.top_p (.num 1) ≠ .jnull ∧ dflt b.top_p (.num 1) ≠ .undef ∧
    dflt b.top_k (.num 40) ≠ .jnull ∧ dflt b.top_k (.num 40) ≠ .undef ∧
    dflt b.presence_penalty (.num 0) ≠ .jnull ∧
    dflt b.presence_penalty (.num 0) ≠ .undef ∧
    dflt b.frequency_penalty (.num 0) ≠ .jnull ∧
    dflt b.frequency_penalty (.num 0) ≠ .undef ∧
    nodeStreamingMaxTokens b.max_tokens ≠ .jnull ∧
    nodeStreamingMaxTokens b.max_tokens ≠ .undef ∧
    edgeMaxTokens b.max_tokens ≠ .jnull ∧
    edgeMaxTokens b.max_tokens ≠ .undef := by
  refine ⟨?_, rfl, ?_, ?_, ?_, ?_, ?_, ?_, rfl, rfl, rfl, rfl, rfl, rfl,
    dflt_ne_jnull ht (by simp), dflt_ne_undef (by simp),
    dflt_ne_jnull hp (by simp), dflt_ne_undef (by simp),
    dflt_ne_jnull hk (by simp), dflt_ne_undef (by simp),
    dflt_ne_jnull hpp (by simp), dflt_ne_undef (by simp),
    dflt_ne_jnull hfp (by simp), dflt_ne_undef (by simp),
    clampNum_ne_jnull _ _, clampNum_ne_undef _ _,
    clampNum_ne_jnull _ _, clampNum_ne_undef _ _⟩
  · show nodeCleanup (.boolv true) = some (.boolv true)
    simp [nodeCleanup]
  · exact nodeCleanup_eq_some (clampNum_ne_undef _ _) (clampNum_ne_jnull _ _)
  · exact nodeCleanup_eq_some (dflt_ne_undef (by simp)) (dflt_ne_jnull ht (by simp))
  · exact nodeCleanup_eq_some (dflt_ne_undef (by simp)) (dflt_ne_jnull hp (by simp))
  · exact nodeCleanup_eq_some (dflt_ne_undef (by simp)) (dflt_ne_jnull hk (by simp))
  · exact nodeCleanup_eq_some (dflt_ne_undef (by simp)) (dflt_ne_jnull hpp (by simp))
  · exact nodeCleanup_eq_some (dflt_ne_undef (by simp)) (dflt_ne_jnull hfp (by simp))

theorem c7_canonical_payload_witness :
    (nodeCleanedParams goodBody).stream = some (.boolv true) ∧
    (nodeCleanedParams goodBody).temperature = some (.num (6/10)) := by
  have h := c7_canonical_payload goodBody (by simp [goodBody]) (by simp [goodBody])
    (by simp [goodBody]) (by simp [goodBody]) (by simp [goodBody])
  exact ⟨h.1, by simpa [goodBody, dflt] using h.2.2.2.1⟩

/-! ## Claim C8: request validation -/

/-- `goodBody` without the `messages` field. -/
def noMessagesBody : Body :=
  ⟨.str (strL "m"), .undef, .undef, .undef, .undef, .undef, .undef, .undef, .undef⟩

/-- `goodBody` without the `model` field. -/
def noModelBody : Body :=
  ⟨.undef, .objv, .undef, .undef, .undef, .undef, .undef, .undef, .undef⟩

/-- C8-counterexample: a parsed POST request missing `messages` is not
rejected — the edge handler proceeds to stream instead of returning the
claimed InvalidRequest 400; likewise the node streaming handler does not
reject a request missing `model`. -/
theorem c8_counterexample :
    edgeHandler .post true (some noMessagesBody)
        (.resp 200 (strL "OK") (strL "") [] .ended) ≠ .jsonErr 400 ∧
    nodeStreamingHandler .post true (some noModelBody)
        (.resp 200 (strL "OK") [] .ended) ≠ .jsonErr 400 := by
  constructor <;> decide

/-- C8 (amended): a malformed (unparseable) request body is rejected with a
400 before any upstream contact on both streaming paths, and the edge path
also rejects a missing/falsy `model` with 400; but a missing `messages`
field is rejected by neither handler, and the node streaming path does not
check `model` either — both proceed to the upstream call and stream. -/
theorem c8_invalid_request (b bm : Body) (u : EdgeOutcome) (un : NodeOutcome)
    (hm : b.model.jsTruthy = true) (hbm : bm.model.jsTruthy = false) :
    edgeHandler .post true none u = .jsonErr 400 ∧
    nodeStreamingHandler .post true none un = .jsonErr 400 ∧
    edgeHandler .post true (some bm) u = .jsonErr 400 ∧
    edgeHandler .post true (some b) u = .sse (edgeSessionRun u).writes ∧
    nodeStreamingHandler .post true (some bm) un =
      .sse (nodeSessionRun un).writes := by
  refine ⟨rfl, rfl, ?_, ?_, rfl⟩
  · simp [edgeHandler, hbm]
  · simp [edgeHandler, hm]

theorem c8_invalid_request_witness :
    edgeHandler .post true none
        (.resp 200 (strL "OK") (strL "") [] .ended) = .jsonErr 400 ∧
    edgeHandler .post true (some noMessagesBody)
        (.resp 200 (strL "OK") (strL "") [] .ended) =
      .sse (edgeSessionRun (.resp 200 (strL "OK") (strL "") [] .ended)).writes := by
  have h := c8_invalid_request noMessagesBody noModelBody
    (.resp 200 (strL "OK") (strL "") [] .ended)
    (.resp 200 (strL "OK") [] .ended) (by decide) (by decide)
  exact ⟨h.1, h.2.2.2.1⟩

/-! ## Claims C1 and C10: reassembly and the flush -/

/-- C1 (amended): the edge relay's reassembly is split-invariant — for every
way of splitting the upstream byte stream into reads, the emitted data
frames depend only on the concatenated stream: they are the encoding
(`encodeLine`: verbatim for `data:`-prefixed lines, `data: `-wrapped
otherwise, each with the blank-line separator) of every completely
terminated line containing a non-whitespace character, in original order,
followed — when the unterminated trailing remainder is non-empty — by one
unconditionally-wrapped flush frame.  (As literally stated the claim is
false: whitespace-only terminated lines are non-empty yet dropped, while a
whitespace-only unterminated remainder is emitted; see the
counterexample.) -/
theorem c1_split_invariance :
    (∀ chunks : List (List Char),
      edgeDataWrites chunks =
        ((splitParts chunks.flatten).1.filter fun l => !isBlankLine l).map
            encodeLine ++
          edgeFlush (splitParts chunks.flatten).2) ∧
    (∀ cs cs' : List (List Char), cs.flatten = cs'.flatten →
      edgeDataWrites cs = edgeDataWrites cs') := by
  have key : ∀ chunks : List (List Char),
      edgeDataWrites chunks =
        ((splitParts chunks.flatten).1.filter fun l => !isBlankLine l).map
            encodeLine ++
          edgeFlush (splitParts chunks.flatten).2 := by
    intro chunks
    rw [edgeDataWrites, edgeScan_eq_flatten, writesOf_eq_map_filter]
  exact ⟨key, fun cs cs' h => by rw [key cs, key cs', h]⟩

theorem c1_split_invariance_witness :
    edgeDataWrites [strL "data: a\nda", strL "ta: b\n"] =
      edgeDataWrites [strL "data: a\ndata: b\n"] :=
  c1_split_invariance.2 _ _ (by decide)

/-- C1-counterexample: for the single read `" \nok\n "` the relay emits the
frames for `ok` and for the flushed remainder `" "`; this matches neither
the non-empty lines of the stream (`" "`, `ok`, `" "`) nor its
non-whitespace lines (`ok`) — so under either reading of "non-empty lines"
the claim as stated fails. -/
theorem c1_counterexample :
    ¬ (edgeDataWrites [strL " \nok\n "] =
        ((linesOf (strL " \nok\n ")).filter fun l => !l.isEmpty).map
          encodeLine) ∧
    ¬ (edgeDataWrites [strL " \nok\n "] =
        ((linesOf (strL " \nok\n ")).filter fun l => !isBlankLine l).map
          encodeLine) := by
  constructor <;> decide

/-- C10: the end-of-data flush of a non-empty carry-over always prepends
`data: ` unconditionally — unlike the per-line path, which forwards
`data:`-prefixed lines verbatim — so a carried-over line already starting
with `data:` is emitted with a second prefix. -/
theorem c10_flush_unconditional :
    (∀ (c : Char) (cs : List Char),
      edgeFlush (c :: cs) = [dataTagSp ++ (c :: cs) ++ nl2]) ∧
    edgeDataWrites [strL "data: \x7b\"a\":1\x7d"] =
      [strL "data: data: \x7b\"a\":1\x7d\n\n"] ∧
    lineWrites (strL "data: \x7b\"a\":1\x7d") =
      [strL "data: \x7b\"a\":1\x7d\n\n"] := by
  refine ⟨fun c cs => by simp [edgeFlush], by decide, by decide⟩

/-! ## Claims C2–C5: termination sequencing -/

theorem getLast?_append_pair {α : Type} (l : List α) (a b : α) :
    (l ++ [a, b]).getLast? = some b := by
  rw [show l ++ [a, b] = (l ++ [a]) ++ [b] by simp, List.getLast?_concat]

/-- C2-counterexample: a mid-stream upstream error in the edge relay is a
non-cancelled exit path (the edge relay has no cancellation path at all)
on which zero done markers are written — refuting "exactly one done marker
on every non-cancelled exit path". -/
theorem c2_counterexample :
    doneCount (edgeSessionRun
      (.resp 200 (strL "OK") (strL "") [] (.errored (strL "boom")))).writes = 0 ∧
    edgeSessionRun (.resp 200 (strL "OK") (strL "") [] (.errored (strL "boom"))) =
      ⟨[edgeStreamErrFrame (strL "boom")], true, false⟩ := by
  constructor <;> decide

/-- C2 (amended): the node relay writes exactly one done marker on every
non-cancelled exit path — completion, stream error, non-2xx status and
fetch failure alike — zero on the cancelled (client-disconnect) path, and
whenever a done marker is written it is the last write before the sink is
closed.  The edge relay writes its single done marker only on the normal
end-of-data path, where it is likewise the last write; all its error exits
close the sink with zero done markers.  The hypotheses exclude upstream
bytes that themselves coincide with the done-marker frame. -/
theorem c2_done_markers :
    (∀ u : NodeOutcome, doneFrame ∉ nodeUpstreamChunks u →
      doneCount (nodeSessionRun u).writes =
        (if nodeCancelled u then 0 else 1) ∧
      (nodeCancelled u = false →
        (nodeSessionRun u).writes.getLast? = some doneFrame) ∧
      (nodeSessionRun u).sinkClosed = true) ∧
    (∀ e : EdgeOutcome, doneFrame ∉ edgeUpstreamFrames e →
      doneCount (edgeSessionRun e).writes =
        (if edgeNormalEnd e then 1 else 0) ∧
      (edgeNormalEnd e = true →
        (edgeSessionRun e).writes.getLast? = some doneFrame) ∧
      (edgeSessionRun e).sinkClosed = true) := by
  constructor
  · intro u h
    cases u with
    | fetchErr msg =>
      refine ⟨?_, fun _ => ?_, rfl⟩
      · simp [doneCount, nodeSessionRun, nodeCancelled, List.count_cons,
          nodeErrFrame_ne_done msg]
      · exact getLast?_append_pair [] _ _
    | resp code st chunks term =>
      simp only [nodeUpstreamChunks] at h
      by_cases hok : isOkStatus code = true
      · cases term with
        | ended =>
          refine ⟨?_, fun _ => ?_, by simp [nodeSessionRun, hok]⟩
          · simp [doneCount, nodeSessionRun, hok, nodeCancelled,
              List.count_append, List.count_eq_zero.mpr h]
          · simp [nodeSessionRun, hok, List.getLast?_concat]
        | errored msg =>
          refine ⟨?_, fun _ => ?_, by simp [nodeSessionRun, hok]⟩
          · simp [doneCount, nodeSessionRun, hok, nodeCancelled,
              List.count_append, List.count_eq_zero.mpr h, List.count_cons,
              nodeErrFrame_ne_done msg]
          · simp [nodeSessionRun, hok, getLast?_append_pair]
        | clientClosed =>
          refine ⟨?_, fun hcf => ?_, by simp [nodeSessionRun, hok]⟩
          · simp [doneCount, nodeSessionRun, hok, nodeCancelled,
              List.count_eq_zero.mpr h]
          · exact absurd hcf (by simp [nodeCancelled, hok])
      · have hcn : nodeCancelled (.resp code st chunks term) = false := by
          cases term <;> simp [nodeCancelled, hok]
        refine ⟨?_, fun _ => ?_, by simp [nodeSessionRun, hok]⟩
        · simp [doneCount, nodeSessionRun, hok, hcn, List.count_cons,
            nodeErrFrame_ne_done]
        · simp only [nodeSessionRun, hok, if_false, Bool.false_eq_true]
          exact getLast?_append_pair [] _ _
  · intro e h
    cases e with
    | fetchErr msg =>
      refine ⟨?_, fun hcf => ?_, rfl⟩
      · simp [doneCount, edgeSessionRun, edgeNormalEnd, List.count_singleton,
          edgeFetchErrFrame_ne_done msg]
      · exact absurd hcf (by simp [edgeNormalEnd])
    | resp code st det chunks term =>
      by_cases hok : isOkStatus code = true
      · cases term with
        | ended =>
          simp only [edgeUpstreamFrames] at h
          refine ⟨?_, fun _ => ?_, by simp [edgeSessionRun, hok]⟩
          · simp [doneCount, edgeSessionRun, hok, edgeNormalEnd,
              List.count_append, List.count_eq_zero.mpr h]
          · simp [edgeSessionRun, hok, List.getLast?_concat]
        | errored msg =>
          simp only [edgeUpstreamFrames] at h
          refine ⟨?_, fun hcf => ?_, by simp [edgeSessionRun, hok]⟩
          · simp [doneCount, edgeSessionRun, hok, edgeNormalEnd,
              List.count_append, List.count_eq_zero.mpr h,
              List.count_singleton, edgeStreamErrFrame_ne_done msg]
          · exact absurd hcf (by simp [edgeNormalEnd])
      · have hcn : edgeNormalEnd (.resp code st det chunks term) = false := by
          cases term <;> simp [edgeNormalEnd, hok]
        refine ⟨?_, fun hcf => ?_, by simp [edgeSessionRun, hok]⟩
        · simp [doneCount, edgeSessionRun, hok, hcn, List.count_singleton,
            edgeStatusFrame_ne_done]
        · exact absurd hcf (by simp [hcn])

theorem c2_done_markers_witness :
    doneCount (nodeSessionRun
      (.resp 200 (strL "OK") [strL "data: x\n\n"] .ended)).writes = 1 ∧
    doneCount (edgeSessionRun
      (.resp 200 (strL "OK") (strL "") [strL "data: x\n"] .ended)).writes = 1 := by
  constructor
  · have h := c2_done_markers.1
      (.resp 200 (strL "OK") [strL "data: x\n\n"] .ended) (by decide)
    simpa [nodeCancelled] using h.1
  · have h := c2_done_markers.2
      (.resp 200 (strL "OK") (strL "") [strL "data: x\n"] .ended) (by decide)
    simpa [edgeNormalEnd, isOkStatus] using h.1

/-- C3-counterexample: in the edge relay a mid-stream transport error is
not followed by any terminator — the last write is the error frame itself
and no done marker is ever written — refuting "error frame, then
immediately the done marker" for the cited edge path. -/
theorem c3_counterexample :
    (edgeSessionRun (.resp 200 (strL "OK") (strL "")
        [strL "data: x\n"] (.errored (strL "reset")))).writes.getLast? =
      some (edgeStreamErrFrame (strL "reset")) ∧
    doneCount (edgeSessionRun (.resp 200 (strL "OK") (strL "")
        [strL "data: x\n"] (.errored (strL "reset")))).writes = 0 := by
  constructor <;> decide

/-- C3 (amended): when the upstream source raises a transport error after
streaming has begun (2xx response delivered some chunks), the node relay
writes exactly one error frame, then immediately the done marker, then
closes the sink, in that order; the edge relay instead writes its error
frame and closes the sink without any done marker. -/
theorem c3_error_then_done (code : Nat) (st det msg : List Char)
    (chunks : List (List Char)) (hok : isOkStatus code = true) :
    nodeSessionRun (.resp code st chunks (.errored msg)) =
      ⟨chunks ++ [nodeErrFrame msg, doneFrame], true, false⟩ ∧
    edgeSessionRun (.resp code st det chunks (.errored msg)) =
      ⟨(edgeScan chunks).2 ++ [edgeStreamErrFrame msg], true, false⟩ ∧
    (doneFrame ∉ (edgeScan chunks).2 →
      doneCount (edgeSessionRun
        (.resp code st det chunks (.errored msg))).writes = 0) := by
  refine ⟨by simp [nodeSessionRun, hok], by simp [edgeSessionRun, hok],
    fun h => ?_⟩
  simp [edgeSessionRun, hok, doneCount, List.count_append,
    List.count_eq_zero.mpr h, List.count_singleton,
    edgeStreamErrFrame_ne_done msg]

theorem c3_error_then_done_witness :
    nodeSessionRun (.resp 200 (strL "OK") [strL "a\n\n"]
        (.errored (strL "reset"))) =
      ⟨[strL "a\n\n", nodeErrFrame (strL "reset"), doneFrame], true, false⟩ := by
  simpa using (c3_error_then_done 200 (strL "OK") (strL "") (strL "reset")
    [strL "a\n\n"] (by decide)).1

/-- C4-counterexample: with a valid request and an upstream 500 before any
stream bytes, the edge handler still delivers the already-committed
`text/event-stream` response whose body is one in-stream error frame — not
the claimed non-streaming error body with status 500; the node handler
likewise streams the error (followed by a done marker), its SSE headers
having been flushed before the upstream call. -/
theorem c4_counterexample :
    edgeHandler .post true (some goodBody)
        (.resp 500 (strL "Internal Server Error") (strL "oops") [] .ended) =
      .sse [edgeStatusFrame (strL "Internal Server Error") (strL "oops")] ∧
    edgeHandler .post true (some goodBody)
        (.resp 500 (strL "Internal Server Error") (strL "oops") [] .ended) ≠
      .jsonErr 500 ∧
    nodeStreamingHandler .post true (some goodBody)
        (.resp 500 (strL "Internal Server Error") [] .ended) =
      .sse [nodeErrFrame (strL "API Error: 500 Internal Server Error"),
        doneFrame] ∧
    nodeStreamingHandler .post true (some goodBody)
        (.resp 500 (strL "Internal Server Error") [] .ended) ≠
      .jsonErr 500 := by
  refine ⟨by decide, by decide, by decide, by decide⟩

/-- C4 (amended): both streaming handlers commit the `text/event-stream`
response before contacting upstream, so a non-2xx upstream status before
any stream bytes yields an SSE response (HTTP 200) whose body is a single
error frame — followed by the done marker on the node path, by nothing on
the edge path — and the upstream's status code is visible only inside the
node frame's message text, never as the HTTP status of the caller's
response. -/
theorem c4_status_streams (b : Body) (code : Nat) (st det : List Char)
    (chunks : List (List Char)) (te : StreamTerm) (tn : NodeTerm)
    (hm : b.model.jsTruthy = true) (hok : isOkStatus code = false) :
    edgeHandler .post true (some b) (.resp code st det chunks te) =
      .sse [edgeStatusFrame st det] ∧
    nodeStreamingHandler .post true (some b) (.resp code st chunks tn) =
      .sse [nodeErrFrame (strL "API Error: " ++ natL code ++ strL " " ++ st),
        doneFrame] := by
  constructor
  · simp [edgeHandler, hm, edgeSessionRun, hok]
  · simp [nodeStreamingHandler, nodeSessionRun, hok]

theorem c4_status_streams_witness :
    edgeHandler .post true (some goodBody)
        (.resp 404 (strL "Not Found") (strL "nf") [] .ended) =
      .sse [edgeStatusFrame (strL "Not Found") (strL "nf")] := by
  exact (c4_status_streams goodBody 404 (strL "Not Found") (strL "nf") []
    .ended .ended (by decide) (by decide)).1

/-- C5: once streaming has begun (2xx) and at least one frame has been
forwarded, a client disconnect makes the node relay destroy the upstream
source, close the sink, write nothing further (its writes are exactly the
chunks forwarded so far), and emit no done marker. -/
theorem c5_client_close (code : Nat) (st : List Char)
    (chunks : List (List Char)) (hok : isOkStatus code = true)
    (hne : chunks ≠ []) (hd : doneFrame ∉ chunks) :
    nodeSessionRun (.resp code st chunks .clientClosed) =
      ⟨chunks, true, true⟩ ∧
    doneCount (nodeSessionRun (.resp code st chunks .clientClosed)).writes
      = 0 := by
  refine ⟨by simp [nodeSessionRun, hok], ?_⟩
  simp [nodeSessionRun, hok, doneCount, List.count_eq_zero.mpr hd]

theorem c5_client_close_witness :
    nodeSessionRun (.resp 200 (strL "OK") [strL "data: hi\n\n"] .clientClosed) =
      ⟨[strL "data: hi\n\n"], true, true⟩ :=
  (c5_client_close 200 (strL "OK") [strL "data: hi\n\n"] (by decide)
    (by decide) (by decide)).1
